import Mathlib

/-!
Shallow embedding of the identity cross-validation pipeline from `main.py`
(`jvishwa06/hv-formvalidation`).

Modelling conventions:
  * Machine bytes are not modelled bit-for-bit.  A submitted document is
    modelled by its byte size (a natural number) together with the result of
    opening it with the paginated-document library (`fitz.open`): either the
    open fails, or it yields a list of pages, each carrying its text layer and
    the ordered list of embedded-image identifiers (the `xref` integers).
  * Pixel-level image decoding/resizing (PIL) and the external AWS Rekognition
    service (`detect_text`, `detect_faces`, `compare_faces`) are modelled as a
    deterministic environment `Env` of pure functions keyed by image
    identifiers, matching the spec's "deterministic stub of the external
    recognition/comparison service".  Likewise the Python regular-expression
    searches over the page-1 text (`form_patterns`) and over the OCR text blob
    (`pan_patterns`), and the HumanName/partial_ratio name scoring, are carried
    by `Env` as pure extraction functions: no claim depends on the concrete
    pattern semantics, only on how the extracted optional values flow onward.
  * Python floats are modelled as exact rationals (ℚ).  The face threshold
    `FACE_SIMILARITY_THRESHOLD * 100` evaluates in IEEE double arithmetic to
    exactly 70.0 (0.7 rounds to 0.6999999999999999555..., and multiplying by
    100 rounds back to exactly 70.0), so it is embedded as the rational 70.
    The size test `len(contents)/(1024*1024) > 10` is exact in double
    arithmetic for every realistic length, hence embedded as
    `10*1024*1024 < byteSize`.
  * Exceptions become `Except String`/`Option` results; the `except Exception`
    handler of the endpoint is an explicit match.  `asyncio.gather` raising the
    failing task's exception is the error-propagating join `run_parallel`.
-/

namespace FormValidation

/-- `MAX_FILE_SIZE_MB` from the source, expressed in bytes
(`len(contents)/(1024*1024) > 10` is equivalent to `10*1024*1024 < len`). -/
def MAX_FILE_SIZE_BYTES : Nat := 10 * 1024 * 1024

/-- `REQUIRED_PAGE_COUNT = 3`. -/
def REQUIRED_PAGE_COUNT : Nat := 3

/-- `TEXT_SIMILARITY_THRESHOLD = 80`. -/
def TEXT_SIMILARITY_THRESHOLD : ℚ := 80

/-- `FACE_SIMILARITY_THRESHOLD * 100`, which is exactly 70.0 in IEEE doubles. -/
def FACE_THRESHOLD_TIMES_100 : ℚ := 70

/-- The four compared identity fields (the shared key set of `form_patterns`
and `pan_patterns`). -/
inductive Field
  | pan_number
  | full_name
  | father_name
  | dob
deriving DecidableEq, Repr

/-- The Python key string of a field. -/
def Field.key : Field → String
  | .pan_number => "pan_number"
  | .full_name => "full_name"
  | .father_name => "father_name"
  | .dob => "dob"

/-- A fixed-key dictionary of optional extracted values: the shape of
`form_data` and `pan_data` (every key present, values possibly `None`). -/
structure FieldMap where
  pan_number : Option String
  full_name : Option String
  father_name : Option String
  dob : Option String
deriving DecidableEq, Repr

/-- Look a field up in a `FieldMap` (`form_data.get(key, "")`; the key is
always present, so this is plain access). -/
def FieldMap.get : FieldMap → Field → Option String
  | m, .pan_number => m.pan_number
  | m, .full_name => m.full_name
  | m, .father_name => m.father_name
  | m, .dob => m.dob

/-- One page of an opened document: its text layer (`page.get_text()`) and the
ordered identifiers of its embedded images (`page.get_images(full=True)`,
keeping only the xref that the code uses). -/
structure Page where
  text : String
  images : List Nat
deriving DecidableEq, Repr

/-- Result of `fitz.open(stream=contents, filetype="pdf")`: failure, or the
list of pages. -/
inductive ParseResult
  | invalid
  | ok (pages : List Page)
deriving DecidableEq, Repr

/-- A submitted document: its byte size and what opening it yields. -/
structure Pdf where
  byteSize : Nat
  parse : ParseResult
deriving DecidableEq, Repr

/-- The three structural-validation failures of section 4.1. -/
inductive StructError
  | fileTooLarge
  | invalidPdf
  | invalidPageCount
deriving DecidableEq, Repr

/-- HTTP status carried by the `HTTPException` that `validate_pdf_file`
raises for each structural failure. -/
def StructError.status : StructError → Nat
  | .fileTooLarge => 413
  | .invalidPdf => 400
  | .invalidPageCount => 400

/-- The `code` entry of the `detail` dict of each structural failure. -/
def StructError.code : StructError → String
  | .fileTooLarge => "FILE_TOO_LARGE"
  | .invalidPdf => "INVALID_PDF"
  | .invalidPageCount => "INVALID_PAGE_COUNT"

/-- Rendering of `str(e)` for the raised `HTTPException`
(Starlette renders `f"{status_code}: {detail}"`; the detail dict is
abbreviated here to its `code` entry, the only part any claim mentions). -/
def StructError.str (e : StructError) : String :=
  toString e.status ++ ": " ++ e.code

/-- `validate_pdf_file` (main.py lines 55-90): size check, then parse check,
then page-count check, in that order; `none` means all checks passed.  The
mismatched-extension warning on line 89 is a log-only side effect and is not
modelled. -/
def validate_pdf_file (doc : Pdf) : Option StructError :=
  if MAX_FILE_SIZE_BYTES < doc.byteSize then some .fileTooLarge
  else
    match doc.parse with
    | .invalid => some .invalidPdf
    | .ok pages =>
      if pages.length ≠ REQUIRED_PAGE_COUNT then some .invalidPageCount
      else none

/-- Deterministic environment standing for the Python regex engine, PIL and
the stubbed AWS Rekognition service.  All functions are pure, so a fixed
environment is exactly the spec's "deterministic stub". -/
structure Env where
  /-- `re.search(form_patterns[f], page1_text)` with `.group(1).strip()`,
  `None` when the pattern does not match. -/
  formExtract : Field → String → Option String
  /-- LINE-level `DetectedText` strings returned by `detect_text` for the
  (resized, re-encoded) image with the given xref, in detection order. -/
  detectTextLines : Nat → List String
  /-- `re.search(pan_patterns[f], full_text, flags=re.IGNORECASE)` with
  `.group(1).strip()`. -/
  panExtract : Field → String → Option String
  /-- `round(fuzz.partial_ratio(...), 2)` over the HumanName-normalised
  "first last" strings of two non-empty names. -/
  nameFuzz : String → String → ℚ
  /-- Number of `FaceDetails` that `detect_faces` reports on the combined
  side-by-side image built from the two page images with the given xrefs. -/
  detectFacesCount : Nat → Nat → Nat
  /-- `Similarity` of the top `compare_faces` match between the two face
  crops (0 when `FaceMatches` is empty), before rounding. -/
  compareFacesSim : Nat → Nat → ℚ

/-- Python `round(x, 2)` on the exact rational value. -/
def round2 (q : ℚ) : ℚ := ((round (q * 100) : ℤ) : ℚ) / 100

/-- Indel (insertion/deletion-only Levenshtein) distance between two
character lists: the distance underlying rapidfuzz's `fuzz.ratio`. -/
def indel : List Char → List Char → Nat
  | [], ys => ys.length
  | x :: xs, [] => (x :: xs).length
  | x :: xs, y :: ys =>
    if x = y then indel xs ys
    else 1 + min (indel (x :: xs) ys) (indel xs (y :: ys))
termination_by xs ys => xs.length + ys.length

/-- rapidfuzz `fuzz.ratio(a, b)` on two strings: the normalized indel
similarity scaled to 0..100 (`100 * (1 - dist / (len1 + len2))`), with two
empty strings scoring 100. -/
def ratioStr (a b : String) : ℚ :=
  if a.toList.length + b.toList.length = 0 then 100
  else 100 * (1 - (indel a.toList b.toList : ℚ) /
    ((a.toList.length : ℚ) + (b.toList.length : ℚ)))

/-- rapidfuzz `fuzz.ratio` lifted to optional values: rapidfuzz returns 0
whenever either argument is `None`. -/
def fuzzRatioOpt : Option String → Option String → ℚ
  | some a, some b => ratioStr a b
  | _, _ => 0

/-- Python truthiness of an `Optional[str]`: `None` and `""` are falsy. -/
def strTruthy : Option String → Bool
  | none => false
  | some s => !(s = "")

/-- `val.upper()`: uppercase every character (the extracted values are
ASCII, where `Char.toUpper` agrees with Python `str.upper`). -/
def strUpper (s : String) : String := ⟨s.data.map Char.toUpper⟩

/-- `val.upper()` lifted to optional values (the source only calls it on
truthy values). -/
def pyUpper (v : Option String) : Option String := v.map strUpper

/-- The exact-format scoring expression of main.py line 237:
`100.0 if val1 and val2 and val1.upper() == val2.upper()
 else round(fuzz.ratio(val1, val2), 2)`. -/
def exact_score (v1 v2 : Option String) : ℚ :=
  if strTruthy v1 = true ∧ strTruthy v2 = true ∧ pyUpper v1 = pyUpper v2 then 100
  else round2 (fuzzRatioOpt v1 v2)

/-- `name_score` (main.py lines 226-230): falsy on either side scores 0.0,
otherwise the HumanName/partial_ratio blend, carried by the environment. -/
def name_score (env : Env) (n1 n2 : Option String) : ℚ :=
  if strTruthy n1 = false ∨ strTruthy n2 = false then 0
  else env.nameFuzz ((pyUpper n1).getD "") ((pyUpper n2).getD "")

/-- The comparison dict of main.py lines 232-237, in Python dict insertion
order: full_name, father_name (name scoring), then pan_number, dob (exact
scoring). -/
def compareAll (env : Env) (form_data pan_data : FieldMap) : List (Field × ℚ) :=
  [ (.full_name, name_score env form_data.full_name pan_data.full_name),
    (.father_name, name_score env form_data.father_name pan_data.father_name),
    (.pan_number, exact_score form_data.pan_number pan_data.pan_number),
    (.dob, exact_score form_data.dob pan_data.dob) ]

/-- Successful output of `process_kyc_pdf` (the latency entries, which never
affect the decision, are not carried). -/
structure KycOut where
  form_data : FieldMap
  pan_data : FieldMap
  match_scores : List (Field × ℚ)
deriving DecidableEq, Repr

/-- `process_kyc_pdf` (main.py lines 165-248): extract the four form fields
from page 1's text, require an embedded image on page 2, OCR it, extract the
four card fields from the joined LINE text, and score each pair.  Any raised
exception is the `Except.error` case. -/
def process_kyc_pdf (env : Env) (doc : Pdf) : Except String KycOut :=
  match doc.parse with
  | .invalid => .error "cannot open broken document"
  | .ok pages =>
    match pages.get? 0 with
    | none => .error "page not in document"
    | some p0 =>
      let form_data : FieldMap :=
        { pan_number := env.formExtract .pan_number p0.text,
          full_name := env.formExtract .full_name p0.text,
          father_name := env.formExtract .father_name p0.text,
          dob := env.formExtract .dob p0.text }
      match pages.get? 1 with
      | none => .error "page not in document"
      | some p1 =>
        match p1.images.head? with
        | none => .error "No image found on page 2"
        | some xref =>
          let full_text := String.intercalate "\n" (env.detectTextLines xref)
          let pan_data : FieldMap :=
            { pan_number := env.panExtract .pan_number full_text,
              full_name := env.panExtract .full_name full_text,
              father_name := env.panExtract .father_name full_text,
              dob := env.panExtract .dob full_text }
          .ok { form_data := form_data, pan_data := pan_data,
                match_scores := compareAll env form_data pan_data }

/-- Successful output of `compare_faces_from_pdf` (latencies not carried). -/
structure FaceOut where
  similarity : ℚ
deriving DecidableEq, Repr

/-- `compare_faces_from_pdf` (main.py lines 92-163): needs the first embedded
image of pages at indices 1 and 2, runs face detection on the combined image
(fatal if fewer than 2 faces), then face comparison on the two crops; every
exception is re-raised as `RuntimeError("Face comparison failed: ...")`. -/
def compare_faces_from_pdf (env : Env) (doc : Pdf) : Except String FaceOut :=
  match doc.parse with
  | .invalid => .error "Face comparison failed: cannot open broken document"
  | .ok pages =>
    match pages.get? 1 with
    | none => .error "Face comparison failed: page not in document"
    | some p1 =>
      match p1.images.head? with
      | none => .error "Face comparison failed: No image on page 2"
      | some x1 =>
        match pages.get? 2 with
        | none => .error "Face comparison failed: page not in document"
        | some p2 =>
          match p2.images.head? with
          | none => .error "Face comparison failed: No image on page 3"
          | some x2 =>
            if env.detectFacesCount x1 x2 < 2 then
              .error "Face comparison failed: Expected 2 faces but found less."
            else
              .ok { similarity := round2 (env.compareFacesSim x1 x2) }

/-- `run_parallel` (main.py lines 250-258): run both branches on the same
bytes and join with `asyncio.gather`, which propagates the failing task's
exception; both succeeding yields the pair. -/
def run_parallel (env : Env) (doc : Pdf) : Except String (KycOut × FaceOut) :=
  match process_kyc_pdf env doc, compare_faces_from_pdf env doc with
  | .error e, _ => .error e
  | _, .error e => .error e
  | .ok k, .ok f => .ok (k, f)

/-- One entry of the response's `errors` list. -/
structure ErrEntry where
  code : String
  message : String
deriving DecidableEq, Repr

/-- The error entry appended for a failing field (main.py lines 290-293):
code `f"{key.upper()}_MISMATCH"` and the human message. -/
def mismatchEntry (f : Field) : ErrEntry :=
  { code := f.key.toUpper ++ "_MISMATCH",
    message := (f.key.replace "_" " ").toUpper
      ++ " differs between Page 1 and PAN card" }

/-- The `face_match` object of the response. -/
structure FaceMatch where
  similarity : ℚ
  pass : Bool
deriving DecidableEq, Repr

/-- The `metrics` object of the response: wall-clock latencies copied from
the measured timings; they never affect the decision. -/
structure Metrics where
  processing_ms : ℚ
  ocr_ms : ℚ
  face_match_ms : ℚ
deriving DecidableEq, Repr

/-- The 200 response body (`response_data`, main.py lines 305-314). -/
structure Response where
  application_id : String
  field_matches : List (Field × ℚ × Bool)
  field_pass : Bool
  face_match : FaceMatch
  overall_pass : Bool
  errors : List ErrEntry
  processed_at : String
  metrics : Metrics
deriving DecidableEq, Repr

/-- The per-field loop of main.py lines 285-293 over the `match_scores`
entries in dict insertion order: builds `field_matches`, the conjunction
`field_pass`, and the `errors` list (one mismatch entry per failing field,
in iteration order). -/
def fieldsLoop : List (Field × ℚ) → List (Field × ℚ × Bool) × Bool × List ErrEntry
  | [] => ([], true, [])
  | (k, s) :: rest =>
    let isPass : Bool := decide (TEXT_SIMILARITY_THRESHOLD ≤ s)
    let r := fieldsLoop rest
    ((k, s, isPass) :: r.1, isPass && r.2.1,
      if isPass then r.2.2 else mismatchEntry k :: r.2.2)

/-- Assembly of the 200 response (main.py lines 283-314): per-field results,
`face_pass = similarity >= FACE_SIMILARITY_THRESHOLD * 100`, and
`overall_pass = field_pass and face_pass`.  The timestamp and the measured
latencies are passed in (`datetime.utcnow()` and the `perf_counter` readings
of this run). -/
def mkResponse (app_id : String) (kyc : KycOut) (face : FaceOut)
    (t : String) (lt : Metrics) : Response :=
  let r := fieldsLoop kyc.match_scores
  let face_pass : Bool := decide (FACE_THRESHOLD_TIMES_100 ≤ face.similarity)
  { application_id := app_id,
    field_matches := r.1,
    field_pass := r.2.1,
    face_match := { similarity := face.similarity, pass := face_pass },
    overall_pass := r.2.1 && face_pass,
    errors := r.2.2,
    processed_at := t,
    metrics := lt }

/-- `application_id or f"APP-{random.randint(10000, 99999)}"` (line 270):
a missing or empty (falsy) caller value is replaced by the generated id,
where `r` is the drawn random integer. -/
def genAppId (idOpt : Option String) (r : Nat) : String :=
  match idOpt with
  | some s => if s = "" then "APP-" ++ toString r else s
  | none => "APP-" ++ toString r

/-- What the endpoint sends: a 200 body, or an error status with the
`{code, message}` detail dict. -/
inductive HttpResult
  | ok (resp : Response)
  | err (status : Nat) (code : String) (message : String)
deriving DecidableEq, Repr

/-- Observable outcome of one endpoint invocation: the HTTP result, whether
the extraction branches were ever started, and the application id used in
the request logs (`START` / `ERROR` lines). -/
structure EndpointTrace where
  result : HttpResult
  extractionInvoked : Bool
  loggedId : String
deriving DecidableEq, Repr

/-- `validate_application` (main.py lines 268-320).  The whole `try` body -
including the `HTTPException`s raised by `validate_pdf_file` - is guarded by
`except Exception`, which logs and re-raises every failure as
`HTTPException(500, {code: "PROCESSING_FAILED", message: str(e)})`.
Inputs beyond the document: the caller's optional `application_id`, the
drawn random integer `r`, the timestamp `t` and the measured latencies `lt`
of this run, and the deterministic environment `env`. -/
def validate_application (env : Env) (idOpt : Option String) (r : Nat)
    (t : String) (lt : Metrics) (doc : Pdf) : EndpointTrace :=
  let app_id := genAppId idOpt r
  match validate_pdf_file doc with
  | some e =>
    { result := .err 500 "PROCESSING_FAILED" e.str,
      extractionInvoked := false, loggedId := app_id }
  | none =>
    match run_parallel env doc with
    | .error m =>
      { result := .err 500 "PROCESSING_FAILED" m,
        extractionInvoked := true, loggedId := app_id }
    | .ok (kyc, face) =>
      { result := .ok (mkResponse app_id kyc face t lt),
        extractionInvoked := true, loggedId := app_id }

/-- The Verdict with its run-specific observability fields (`processed_at`
timestamp and `metrics` latencies) removed: what "identical Verdict
responses, excluding the timestamp and latency fields" quantifies over. -/
structure VerdictCore where
  application_id : String
  field_matches : List (Field × ℚ × Bool)
  field_pass : Bool
  face_match : FaceMatch
  overall_pass : Bool
  errors : List ErrEntry
deriving DecidableEq, Repr

/-- An `HttpResult` with timestamp/latency fields removed. -/
inductive ResultCore
  | ok (v : VerdictCore)
  | err (status : Nat) (code : String) (message : String)
deriving DecidableEq, Repr

/-- Project a response onto its timestamp/latency-free core. -/
def verdictCore (resp : Response) : VerdictCore :=
  { application_id := resp.application_id,
    field_matches := resp.field_matches,
    field_pass := resp.field_pass,
    face_match := resp.face_match,
    overall_pass := resp.overall_pass,
    errors := resp.errors }

/-- Project an `HttpResult` onto its timestamp/latency-free core. -/
def resultCore : HttpResult → ResultCore
  | .ok resp => .ok (verdictCore resp)
  | .err s c m => .err s c m

/-! ### Concrete instances used by witnesses and counterexamples -/

/-- Sample extracted value for each field. -/
def sampleVal : Field → String
  | .pan_number => "ABCDE1234F"
  | .full_name => "JOHN SMITH"
  | .father_name => "JAMES SMITH"
  | .dob => "01/01/1990"

/-- A deterministic stub environment: every pattern matches its sample
value, OCR returns one line, two faces are detected, name fuzz 90,
face similarity 50. -/
def envA : Env :=
  { formExtract := fun f _ => some (sampleVal f),
    detectTextLines := fun _ => ["x"],
    panExtract := fun f _ => some (sampleVal f),
    nameFuzz := fun _ _ => 90,
    detectFacesCount := fun _ _ => 2,
    compareFacesSim := fun _ _ => 50 }

/-- Like `envA` but the form-side `pan_number` pattern finds nothing. -/
def envAbsent : Env :=
  { envA with formExtract := fun f t =>
      if f = .pan_number then none else envA.formExtract f t }

/-- A well-formed 3-page document: a text form page and one embedded image
on each of pages 2 and 3. -/
def docA : Pdf := ⟨1000, .ok [⟨"p1", []⟩, ⟨"p2", [1]⟩, ⟨"p3", [2]⟩]⟩

/-- A 3-page document whose third page carries no embedded image, so the
face branch fails while the text branch succeeds. -/
def docFaceFail : Pdf := ⟨1000, .ok [⟨"p1", []⟩, ⟨"p2", [1]⟩, ⟨"p3", []⟩]⟩

/-- Some measured latencies. -/
def ltA : Metrics := ⟨1, 2, 3⟩

/-! ### Helper lemmas -/

/-- Indel distance is symmetric. -/
theorem indel_comm (xs ys : List Char) : indel xs ys = indel ys xs := by
  have key : ∀ n xs ys, List.length xs + List.length ys ≤ n →
      indel xs ys = indel ys xs := by
    intro n
    induction n with
    | zero =>
      intro xs ys h
      have hx : xs = [] := List.eq_nil_of_length_eq_zero (by omega)
      have hy : ys = [] := List.eq_nil_of_length_eq_zero (by omega)
      subst hx; subst hy; rfl
    | succ n ih =>
      intro xs ys h
      match xs, ys with
      | [], [] => rfl
      | [], y :: ys => simp [indel]
      | x :: xs, [] => simp [indel]
      | x :: xs, y :: ys =>
        simp only [indel]
        by_cases hxy : x = y
        · subst hxy
          rw [if_pos rfl, if_pos rfl]
          exact ih xs ys (by simp at h; omega)
        · rw [if_neg hxy, if_neg (fun hyx => hxy hyx.symm)]
          have h1 : indel (x :: xs) ys = indel ys (x :: xs) :=
            ih _ _ (by simp at h ⊢; omega)
          have h2 : indel xs (y :: ys) = indel (y :: ys) xs :=
            ih _ _ (by simp at h ⊢; omega)
          rw [h1, h2, Nat.min_comm]
  exact key (xs.length + ys.length) xs ys le_rfl

/-- `fuzz.ratio` is symmetric. -/
theorem ratioStr_comm (a b : String) : ratioStr a b = ratioStr b a := by
  unfold ratioStr
  rw [indel_comm, Nat.add_comm a.toList.length b.toList.length,
    add_comm (a.toList.length : ℚ) (b.toList.length : ℚ)]

/-- `fuzz.ratio` on optional values is symmetric. -/
theorem fuzzRatioOpt_comm (v1 v2 : Option String) :
    fuzzRatioOpt v1 v2 = fuzzRatioOpt v2 v1 := by
  cases v1 <;> cases v2 <;> simp [fuzzRatioOpt, ratioStr_comm]

/-- `fuzz.ratio` is 0 when the left value is `None`. -/
theorem fuzzRatioOpt_none_left (v : Option String) : fuzzRatioOpt none v = 0 := by
  cases v <;> rfl

/-- `fuzz.ratio` is 0 when the right value is `None`. -/
theorem fuzzRatioOpt_none_right (v : Option String) : fuzzRatioOpt v none = 0 := by
  cases v <;> rfl

/-- `round(0.0, 2) = 0.0`. -/
theorem round2_zero : round2 0 = 0 := by
  simp [round2]

/-- An absent value on either side makes the exact-format score 0. -/
theorem exact_score_absent (v1 v2 : Option String)
    (h : v1 = none ∨ v2 = none) : exact_score v1 v2 = 0 := by
  rcases h with h | h <;> subst h
  · rw [exact_score, if_neg (by simp [strTruthy]), fuzzRatioOpt_none_left, round2_zero]
  · rw [exact_score, if_neg (by simp [strTruthy]), fuzzRatioOpt_none_right, round2_zero]

/-- An absent value on either side makes the name score 0. -/
theorem name_score_absent (env : Env) (n1 n2 : Option String)
    (h : n1 = none ∨ n2 = none) : name_score env n1 n2 = 0 := by
  rcases h with h | h <;> subst h <;>
    rw [name_score, if_pos (by simp [strTruthy])]

/-- `field_matches` is the score list tagged with its pass flags. -/
theorem fieldsLoop_fst (l : List (Field × ℚ)) :
    (fieldsLoop l).1 =
      l.map (fun p => (p.1, p.2, decide (TEXT_SIMILARITY_THRESHOLD ≤ p.2))) := by
  induction l with
  | nil => rfl
  | cons p rest ih => cases p; simp [fieldsLoop, ih]

/-- `field_pass` is the conjunction of the per-field pass flags. -/
theorem fieldsLoop_pass (l : List (Field × ℚ)) :
    (fieldsLoop l).2.1 = l.all (fun p => decide (TEXT_SIMILARITY_THRESHOLD ≤ p.2)) := by
  induction l with
  | nil => rfl
  | cons p rest ih => cases p; simp [fieldsLoop, ih]

/-- `errors` is one mismatch entry per failing field, in iteration order. -/
theorem fieldsLoop_errors (l : List (Field × ℚ)) :
    (fieldsLoop l).2.2 =
      (l.filter (fun p => !decide (TEXT_SIMILARITY_THRESHOLD ≤ p.2))).map
        (fun p => mismatchEntry p.1) := by
  induction l with
  | nil => rfl
  | cons p rest ih =>
    cases p with
    | mk k s =>
      by_cases h : TEXT_SIMILARITY_THRESHOLD ≤ s <;>
        simp [fieldsLoop, List.filter_cons, h, ih]

/-- A successful text branch scores exactly its two extracted field maps. -/
theorem process_kyc_pdf_ok_scores (env : Env) (doc : Pdf) (kyc : KycOut)
    (hk : process_kyc_pdf env doc = .ok kyc) :
    kyc.match_scores = compareAll env kyc.form_data kyc.pan_data := by
  unfold process_kyc_pdf at hk
  repeat' split at hk
  all_goals simp_all
  subst hk
  rfl

/-- Both branches succeeding makes the join succeed with the pair. -/
theorem run_parallel_ok (env : Env) (doc : Pdf) (k : KycOut) (f : FaceOut)
    (hk : process_kyc_pdf env doc = .ok k)
    (hf : compare_faces_from_pdf env doc = .ok f) :
    run_parallel env doc = .ok (k, f) := by
  simp [run_parallel, hk, hf]

/-- A failing face branch fails the join with the face branch's error. -/
theorem run_parallel_err_face (env : Env) (doc : Pdf) (k : KycOut) (m : String)
    (hk : process_kyc_pdf env doc = .ok k)
    (hf : compare_faces_from_pdf env doc = .error m) :
    run_parallel env doc = .error m := by
  simp [run_parallel, hk, hf]

/-- A failing text branch fails the join with the text branch's error. -/
theorem run_parallel_err_kyc (env : Env) (doc : Pdf) (m : String)
    (hk : process_kyc_pdf env doc = .error m) :
    run_parallel env doc = .error m := by
  simp [run_parallel, hk]

/-- Shape of the endpoint outcome when validation and both branches pass. -/
theorem validate_application_ok (env : Env) (idOpt : Option String) (r : Nat)
    (t : String) (lt : Metrics) (doc : Pdf) (kyc : KycOut) (face : FaceOut)
    (hv : validate_pdf_file doc = none)
    (hp : run_parallel env doc = .ok (kyc, face)) :
    validate_application env idOpt r t lt doc =
      { result := .ok (mkResponse (genAppId idOpt r) kyc face t lt),
        extractionInvoked := true, loggedId := genAppId idOpt r } := by
  simp [validate_application, hv, hp]

/-- Shape of the endpoint outcome when the join fails. -/
theorem validate_application_err_branch (env : Env) (idOpt : Option String)
    (r : Nat) (t : String) (lt : Metrics) (doc : Pdf) (m : String)
    (hv : validate_pdf_file doc = none)
    (hp : run_parallel env doc = .error m) :
    validate_application env idOpt r t lt doc =
      { result := .err 500 "PROCESSING_FAILED" m,
        extractionInvoked := true, loggedId := genAppId idOpt r } := by
  simp [validate_application, hv, hp]

/-- Shape of the endpoint outcome on a structural-validation failure: the
`except Exception` handler turns the raised `HTTPException` into a 500. -/
theorem validate_application_err_struct (env : Env) (idOpt : Option String)
    (r : Nat) (t : String) (lt : Metrics) (doc : Pdf) (e : StructError)
    (hv : validate_pdf_file doc = some e) :
    validate_application env idOpt r t lt doc =
      { result := .err 500 "PROCESSING_FAILED" e.str,
        extractionInvoked := false, loggedId := genAppId idOpt r } := by
  simp [validate_application, hv]

/-- Truthy values on both sides reach the name-fuzz scorer. -/
theorem name_score_truthy (env : Env) (n1 n2 : Option String)
    (h1 : strTruthy n1 = true) (h2 : strTruthy n2 = true) :
    name_score env n1 n2 =
      env.nameFuzz ((pyUpper n1).getD "") ((pyUpper n2).getD "") := by
  rw [name_score, if_neg]
  simp [h1, h2]

/-- Truthy, case-insensitively equal values score exactly 100. -/
theorem exact_score_eq_100 (v1 v2 : Option String)
    (h1 : strTruthy v1 = true) (h2 : strTruthy v2 = true)
    (h3 : pyUpper v1 = pyUpper v2) : exact_score v1 v2 = 100 := by
  rw [exact_score, if_pos ⟨h1, h2, h3⟩]

/-! ### Concrete evaluations used by the witnesses -/

/-- The field map extracted by `envA` on both sides. -/
def mapA : FieldMap :=
  ⟨some "ABCDE1234F", some "JOHN SMITH", some "JAMES SMITH", some "01/01/1990"⟩

/-- The text-branch output on `envA`/`docA`. -/
def kycA : KycOut :=
  ⟨mapA, mapA, [(.full_name, 90), (.father_name, 90), (.pan_number, 100), (.dob, 100)]⟩

/-- The face-branch output on `envA`/`docA`. -/
def faceA : FaceOut := ⟨50⟩

/-- The 200 body produced on `envA`/`docA` with generated id `APP-10000`. -/
def respA : Response := mkResponse "APP-10000" kycA faceA "t0" ltA

/-- The form-side field map when the `pan_number` pattern finds nothing. -/
def mapAbsent : FieldMap :=
  ⟨none, some "JOHN SMITH", some "JAMES SMITH", some "01/01/1990"⟩

/-- The text-branch output on `envAbsent`/`docA`. -/
def kycAbsent : KycOut :=
  ⟨mapAbsent, mapA, [(.full_name, 90), (.father_name, 90), (.pan_number, 0), (.dob, 100)]⟩

/-- The 200 body produced on `envAbsent`/`docA`. -/
def respAbsent : Response := mkResponse "APP-10000" kycAbsent faceA "t0" ltA

theorem compareAll_A : compareAll envA mapA mapA =
    [(.full_name, 90), (.father_name, 90), (.pan_number, 100), (.dob, 100)] := by
  rw [show compareAll envA mapA mapA =
      [ (.full_name, name_score envA (some "JOHN SMITH") (some "JOHN SMITH")),
        (.father_name, name_score envA (some "JAMES SMITH") (some "JAMES SMITH")),
        (.pan_number, exact_score (some "ABCDE1234F") (some "ABCDE1234F")),
        (.dob, exact_score (some "01/01/1990") (some "01/01/1990")) ] from rfl,
    name_score_truthy envA (some "JOHN SMITH") (some "JOHN SMITH") (by decide) (by decide),
    name_score_truthy envA (some "JAMES SMITH") (some "JAMES SMITH") (by decide) (by decide),
    exact_score_eq_100 (some "ABCDE1234F") (some "ABCDE1234F") (by decide) (by decide) rfl,
    exact_score_eq_100 (some "01/01/1990") (some "01/01/1990") (by decide) (by decide) rfl]
  rfl

theorem compareAll_Absent : compareAll envAbsent mapAbsent mapA =
    [(.full_name, 90), (.father_name, 90), (.pan_number, 0), (.dob, 100)] := by
  rw [show compareAll envAbsent mapAbsent mapA =
      [ (.full_name, name_score envAbsent (some "JOHN SMITH") (some "JOHN SMITH")),
        (.father_name, name_score envAbsent (some "JAMES SMITH") (some "JAMES SMITH")),
        (.pan_number, exact_score none (some "ABCDE1234F")),
        (.dob, exact_score (some "01/01/1990") (some "01/01/1990")) ] from rfl,
    name_score_truthy envAbsent (some "JOHN SMITH") (some "JOHN SMITH") (by decide) (by decide),
    name_score_truthy envAbsent (some "JAMES SMITH") (some "JAMES SMITH") (by decide) (by decide),
    exact_score_absent none (some "ABCDE1234F") (Or.inl rfl),
    exact_score_eq_100 (some "01/01/1990") (some "01/01/1990") (by decide) (by decide) rfl]
  rfl

theorem process_A : process_kyc_pdf envA docA = .ok kycA := by
  rw [show process_kyc_pdf envA docA
      = .ok ⟨mapA, mapA, compareAll envA mapA mapA⟩ from rfl, compareAll_A]
  rfl

theorem process_Absent : process_kyc_pdf envAbsent docA = .ok kycAbsent := by
  rw [show process_kyc_pdf envAbsent docA
      = .ok ⟨mapAbsent, mapA, compareAll envAbsent mapAbsent mapA⟩ from rfl,
    compareAll_Absent]
  rfl

theorem process_FaceFail : process_kyc_pdf envA docFaceFail = .ok kycA := by
  rw [show process_kyc_pdf envA docFaceFail
      = .ok ⟨mapA, mapA, compareAll envA mapA mapA⟩ from rfl, compareAll_A]
  rfl

theorem round2_50 : round2 50 = 50 := by norm_num [round2]

theorem face_A : compare_faces_from_pdf envA docA = .ok faceA := by
  rw [show compare_faces_from_pdf envA docA = .ok ⟨round2 50⟩ from rfl, round2_50]
  rfl

theorem face_Absent : compare_faces_from_pdf envAbsent docA = .ok faceA := by
  rw [show compare_faces_from_pdf envAbsent docA = .ok ⟨round2 50⟩ from rfl, round2_50]
  rfl

theorem face_FaceFail : compare_faces_from_pdf envA docFaceFail
    = .error "Face comparison failed: No image on page 3" := rfl

theorem valid_A : validate_pdf_file docA = none := rfl

theorem valid_FaceFail : validate_pdf_file docFaceFail = none := rfl

theorem endpoint_A : (validate_application envA none 10000 "t0" ltA docA).result
    = .ok respA := by
  rw [validate_application_ok envA none 10000 "t0" ltA docA kycA faceA valid_A
    (run_parallel_ok envA docA kycA faceA process_A face_A)]
  rfl

theorem endpoint_Absent :
    (validate_application envAbsent none 10000 "t0" ltA docA).result
      = .ok respAbsent := by
  rw [validate_application_ok envAbsent none 10000 "t0" ltA docA kycAbsent faceA
    valid_A (run_parallel_ok envAbsent docA kycAbsent faceA process_Absent face_Absent)]
  rfl

/-! ### Claims -/

/-- C1: the claim says a structurally invalid document yields a 4xx response
with the section-4.1 code and never a 500 PROCESSING_FAILED.  The code
disagrees: the `except Exception` block of `validate_application` catches the
`HTTPException(413/400)` raised by `validate_pdf_file` and re-raises it as
`HTTPException(500, PROCESSING_FAILED)`.  This theorem evaluates the endpoint
at an oversized (11 MB) upload: the response is 500 PROCESSING_FAILED, not
413 FILE_TOO_LARGE. -/
theorem oversized_upload_returns_500 :
    (validate_application envA none 10000 "t0" ltA
        ⟨11 * 1024 * 1024, .invalid⟩).result
      = .err 500 "PROCESSING_FAILED" "413: FILE_TOO_LARGE" := rfl

/-- C2: `overall_pass` is true iff every per-field pass flag (score at least
80) is true and the face pass flag (similarity at least 70) is true; and in
any run where every field score passes but the face similarity is 50, the
response has `overall_pass = false`, `face_match.pass = false` and
`field_pass = true`. -/
theorem overall_pass_iff_fields_and_face (env : Env) (idOpt : Option String)
    (r : Nat) (t : String) (lt : Metrics) (doc : Pdf) (kyc : KycOut)
    (face : FaceOut) (resp : Response)
    (hv : validate_pdf_file doc = none)
    (hk : process_kyc_pdf env doc = .ok kyc)
    (hf : compare_faces_from_pdf env doc = .ok face)
    (hresp : (validate_application env idOpt r t lt doc).result = .ok resp) :
    (resp.overall_pass = true ↔
      ((∀ e ∈ resp.field_matches, e.2.2 = true) ∧ resp.face_match.pass = true))
    ∧ (resp.face_match.pass = true ↔ FACE_THRESHOLD_TIMES_100 ≤ face.similarity)
    ∧ (face.similarity = 50 →
        (∀ p ∈ kyc.match_scores, TEXT_SIMILARITY_THRESHOLD ≤ p.2) →
        resp.overall_pass = false ∧ resp.face_match.pass = false
          ∧ resp.field_pass = true) := by
  rw [validate_application_ok env idOpt r t lt doc kyc face hv
    (run_parallel_ok env doc kyc face hk hf)] at hresp
  have hr : resp = mkResponse (genAppId idOpt r) kyc face t lt :=
    (HttpResult.ok.inj hresp).symm
  subst hr
  refine ⟨?_, ?_, ?_⟩
  · simp only [mkResponse, fieldsLoop_fst, fieldsLoop_pass, Bool.and_eq_true,
      List.all_eq_true, decide_eq_true_eq, List.mem_map]
    constructor
    · rintro ⟨h1, h2⟩
      exact ⟨by rintro e ⟨p, hp, rfl⟩; simpa using h1 p hp, h2⟩
    · rintro ⟨h1, h2⟩
      refine ⟨fun p hp => ?_, h2⟩
      simpa using h1 _ ⟨p, hp, rfl⟩
  · simp [mkResponse]
  · intro hsim hall
    have hfp : (fieldsLoop kyc.match_scores).2.1 = true := by
      rw [fieldsLoop_pass, List.all_eq_true]
      intro p hp
      simpa using hall p hp
    have hface : decide (FACE_THRESHOLD_TIMES_100 ≤ face.similarity) = false := by
      rw [hsim]
      norm_num [FACE_THRESHOLD_TIMES_100]
    refine ⟨?_, ?_, ?_⟩ <;> simp [mkResponse, hfp, hface]

/-- Witness for C2: the concrete run on `envA`/`docA` (all four field scores
pass, face similarity 50) has `overall_pass = false`, `face_match.pass =
false`, `field_pass = true`. -/
theorem overall_pass_iff_fields_and_face_witness :
    respA.overall_pass = false ∧ respA.face_match.pass = false
      ∧ respA.field_pass = true :=
  (overall_pass_iff_fields_and_face envA none 10000 "t0" ltA docA kycA faceA
      respA valid_A process_A face_A endpoint_A).2.2 rfl
    (by intro p hp; fin_cases hp <;> norm_num [TEXT_SIMILARITY_THRESHOLD])

/-- C3: the structural validator checks size, format, page count in that
order: an oversized document is rejected FILE_TOO_LARGE no matter what
parsing would yield (so before any parse attempt); a parseable document
within the size limit whose page count is not 3 is rejected
INVALID_PAGE_COUNT; and whenever structural validation rejects, the endpoint
never starts the extraction branches. -/
theorem structural_checks_ordered :
    (∀ (size : Nat) (parse : ParseResult), MAX_FILE_SIZE_BYTES < size →
      validate_pdf_file ⟨size, parse⟩ = some .fileTooLarge)
    ∧ (∀ (size : Nat) (pages : List Page), size ≤ MAX_FILE_SIZE_BYTES →
      pages.length ≠ REQUIRED_PAGE_COUNT →
      validate_pdf_file ⟨size, .ok pages⟩ = some .invalidPageCount)
    ∧ (∀ (env : Env) (idOpt : Option String) (r : Nat) (t : String)
        (lt : Metrics) (doc : Pdf), validate_pdf_file doc ≠ none →
      (validate_application env idOpt r t lt doc).extractionInvoked = false) := by
  refine ⟨?_, ?_, ?_⟩
  · intro size parse h
    simp [validate_pdf_file, h]
  · intro size pages h1 h2
    simp [validate_pdf_file, Nat.not_lt.mpr h1, h2]
  · intro env idOpt r t lt doc h
    match hv : validate_pdf_file doc with
    | none => exact absurd hv h
    | some e =>
      rw [validate_application_err_struct env idOpt r t lt doc e hv]

/-- Witness for C3 at concrete inputs: an oversized unparsable document, a
parseable in-size 2-page document, and the endpoint trace on the oversized
document. -/
theorem structural_checks_ordered_witness :
    validate_pdf_file ⟨MAX_FILE_SIZE_BYTES + 1, .invalid⟩ = some .fileTooLarge
    ∧ validate_pdf_file ⟨5, .ok [⟨"a", []⟩, ⟨"b", []⟩]⟩ = some .invalidPageCount
    ∧ (validate_application envA none 1 "t0" ltA
        ⟨MAX_FILE_SIZE_BYTES + 1, .invalid⟩).extractionInvoked = false :=
  ⟨structural_checks_ordered.1 (MAX_FILE_SIZE_BYTES + 1) .invalid (by decide),
   structural_checks_ordered.2.1 5 [⟨"a", []⟩, ⟨"b", []⟩] (by decide) (by decide),
   structural_checks_ordered.2.2 envA none 1 "t0" ltA
     ⟨MAX_FILE_SIZE_BYTES + 1, .invalid⟩ (by decide)⟩

/-- C4: if one concurrent branch fails while the other succeeds, the join
fails with the failing branch's error (the other branch's result is
discarded) and the endpoint returns 500 PROCESSING_FAILED rather than any
200 verdict. -/
theorem branch_failure_aborts_pipeline (env : Env) (idOpt : Option String)
    (r : Nat) (t : String) (lt : Metrics) (doc : Pdf)
    (hv : validate_pdf_file doc = none) :
    (∀ (kyc : KycOut) (m : String),
      process_kyc_pdf env doc = .ok kyc →
      compare_faces_from_pdf env doc = .error m →
      run_parallel env doc = .error m ∧
        (validate_application env idOpt r t lt doc).result
          = .err 500 "PROCESSING_FAILED" m)
    ∧ (∀ m : String,
      process_kyc_pdf env doc = .error m →
      run_parallel env doc = .error m ∧
        (validate_application env idOpt r t lt doc).result
          = .err 500 "PROCESSING_FAILED" m) := by
  constructor
  · intro kyc m hk hf
    have hr := run_parallel_err_face env doc kyc m hk hf
    exact ⟨hr, by rw [validate_application_err_branch env idOpt r t lt doc m hv hr]⟩
  · intro m hk
    have hr := run_parallel_err_kyc env doc m hk
    exact ⟨hr, by rw [validate_application_err_branch env idOpt r t lt doc m hv hr]⟩

/-- Witness for C4: on `docFaceFail` the text branch succeeds, the face
branch fails (no image on page 3), and the endpoint returns 500
PROCESSING_FAILED with that error. -/
theorem branch_failure_aborts_pipeline_witness :
    run_parallel envA docFaceFail
      = .error "Face comparison failed: No image on page 3"
    ∧ (validate_application envA none 10000 "t0" ltA docFaceFail).result
      = .err 500 "PROCESSING_FAILED" "Face comparison failed: No image on page 3" :=
  (branch_failure_aborts_pipeline envA none 10000 "t0" ltA docFaceFail
      valid_FaceFail).1 kycA _ process_FaceFail face_FaceFail

/-- C5: a field absent on either side (form or card) scores 0 without
aborting the run, its pass flag is false, and the field appears in the
response's errors list with its `{FIELD_NAME}_MISMATCH` code. -/
theorem absent_field_scores_zero (env : Env) (idOpt : Option String) (r : Nat)
    (t : String) (lt : Metrics) (doc : Pdf) (f : Field) (kyc : KycOut)
    (face : FaceOut) (resp : Response)
    (hv : validate_pdf_file doc = none)
    (hk : process_kyc_pdf env doc = .ok kyc)
    (hf : compare_faces_from_pdf env doc = .ok face)
    (hresp : (validate_application env idOpt r t lt doc).result = .ok resp)
    (habs : kyc.form_data.get f = none ∨ kyc.pan_data.get f = none) :
    (f, (0 : ℚ)) ∈ kyc.match_scores
    ∧ (f, (0 : ℚ), false) ∈ resp.field_matches
    ∧ mismatchEntry f ∈ resp.errors := by
  have hcmp := process_kyc_pdf_ok_scores env doc kyc hk
  rw [validate_application_ok env idOpt r t lt doc kyc face hv
    (run_parallel_ok env doc kyc face hk hf)] at hresp
  have hr : resp = mkResponse (genAppId idOpt r) kyc face t lt :=
    (HttpResult.ok.inj hresp).symm
  subst hr
  have hd : decide (TEXT_SIMILARITY_THRESHOLD ≤ (0 : ℚ)) = false := by
    norm_num [TEXT_SIMILARITY_THRESHOLD]
  have hmem : (f, (0 : ℚ)) ∈ kyc.match_scores := by
    rw [hcmp]
    cases f <;> simp only [FieldMap.get] at habs
    · simp [compareAll, exact_score_absent _ _ habs]
    · simp [compareAll, name_score_absent env _ _ habs]
    · simp [compareAll, name_score_absent env _ _ habs]
    · simp [compareAll, exact_score_absent _ _ habs]
  refine ⟨hmem, ?_, ?_⟩
  · simp only [mkResponse, fieldsLoop_fst]
    exact List.mem_map.mpr ⟨(f, 0), hmem, by simp [hd]⟩
  · simp only [mkResponse, fieldsLoop_errors]
    exact List.mem_map.mpr ⟨(f, 0), List.mem_filter.mpr ⟨hmem, by simp [hd]⟩, rfl⟩

/-- Witness for C5: on `envAbsent`/`docA` the form-side `pan_number` is
absent; the run completes with score 0, pass false, and a
PAN_NUMBER_MISMATCH error entry. -/
theorem absent_field_scores_zero_witness :
    (.pan_number, (0 : ℚ)) ∈ kycAbsent.match_scores
    ∧ (.pan_number, (0 : ℚ), false) ∈ respAbsent.field_matches
    ∧ mismatchEntry .pan_number ∈ respAbsent.errors :=
  absent_field_scores_zero envAbsent none 10000 "t0" ltA docA .pan_number
    kycAbsent faceA respAbsent valid_A process_Absent face_Absent
    endpoint_Absent (Or.inl rfl)

/-- C6: for the exact-format fields, two truthy case-insensitively equal
values score exactly 100; in every other case the score is the rounded
normalized edit-distance ratio (which rapidfuzz defines as 0 when either
value is None). -/
theorem exact_format_scoring (v1 v2 : Option String) :
    (∀ a b, v1 = some a → v2 = some b → a ≠ "" → b ≠ "" →
      strUpper a = strUpper b → exact_score v1 v2 = 100)
    ∧ ((strTruthy v1 = false ∨ strTruthy v2 = false ∨ pyUpper v1 ≠ pyUpper v2) →
      exact_score v1 v2 = round2 (fuzzRatioOpt v1 v2)) := by
  constructor
  · rintro a b rfl rfl ha hb hab
    exact exact_score_eq_100 _ _ (by simp [strTruthy, ha])
      (by simp [strTruthy, hb]) (by simp [pyUpper, hab])
  · intro h
    rw [exact_score, if_neg]
    rintro ⟨h1, h2, h3⟩
    rcases h with h | h | h
    · rw [h1] at h; exact Bool.noConfusion h
    · rw [h2] at h; exact Bool.noConfusion h
    · exact h h3

/-- Witness for C6: equal-up-to-case non-empty values score 100, and a
non-equal pair falls through to the rounded edit-distance ratio. -/
theorem exact_format_scoring_witness :
    exact_score (some "ab") (some "AB") = 100
    ∧ exact_score (some "ab") (some "ac")
      = round2 (fuzzRatioOpt (some "ab") (some "ac")) :=
  ⟨(exact_format_scoring (some "ab") (some "AB")).1 "ab" "AB" rfl rfl
      (by decide) (by decide) (by decide),
   (exact_format_scoring (some "ab") (some "ac")).2 (Or.inr (Or.inr (by decide)))⟩

/-- C7: the exact-format score is symmetric in its two arguments, absent
values included. -/
theorem exact_score_symmetric (v1 v2 : Option String) :
    exact_score v1 v2 = exact_score v2 v1 := by
  unfold exact_score
  by_cases h : strTruthy v1 = true ∧ strTruthy v2 = true ∧ pyUpper v1 = pyUpper v2
  · rw [if_pos h, if_pos ⟨h.2.1, h.1, h.2.2.symm⟩]
  · rw [if_neg h, if_neg (fun h2 => h ⟨h2.2.1, h2.1, h2.2.2.symm⟩),
      fuzzRatioOpt_comm]

theorem endpoint_A2 : (validate_application envA none 10001 "t0" ltA docA).result
    = .ok (mkResponse "APP-10001" kycA faceA "t0" ltA) := by
  rw [validate_application_ok envA none 10001 "t0" ltA docA kycA faceA valid_A
    (run_parallel_ok envA docA kycA faceA process_A face_A)]
  rfl

/-- C8 counterexample: two runs on the same bytes (`docA`) against the same
deterministic stub (`envA`), with the caller omitting `application_id`, draw
different random integers (10000 vs 10001) and produce Verdicts that differ
beyond the timestamp and latency fields - the generated `application_id`
lands in the response.  The claim as stated is therefore false. -/
theorem rerun_differs_when_id_omitted :
    resultCore (validate_application envA none 10000 "t0" ltA docA).result
      ≠ resultCore (validate_application envA none 10001 "t0" ltA docA).result := by
  rw [endpoint_A, endpoint_A2]
  intro h
  have h2 := congrArg
    (fun c => match c with | ResultCore.ok v => v.application_id
                           | ResultCore.err _ _ _ => "") h
  simp only [resultCore, verdictCore, respA, mkResponse] at h2
  exact absurd h2 (by decide)

/-- C8 (amended): re-running the pipeline on identical bytes against a
deterministic stub yields an identical Verdict excluding the timestamp and
latency fields, provided the caller supplies a non-empty `application_id`;
when it is omitted, the responses differ additionally in the randomly
generated `application_id`. -/
theorem rerun_identical_core_with_supplied_id (env : Env) (doc : Pdf)
    (s : String) (r1 r2 : Nat) (t1 t2 : String) (lt1 lt2 : Metrics)
    (hs : s ≠ "") :
    resultCore (validate_application env (some s) r1 t1 lt1 doc).result
      = resultCore (validate_application env (some s) r2 t2 lt2 doc).result := by
  have hid : ∀ r : Nat, genAppId (some s) r = s := fun r => by
    simp [genAppId, hs]
  match hv : validate_pdf_file doc with
  | some e =>
    rw [validate_application_err_struct env (some s) r1 t1 lt1 doc e hv,
      validate_application_err_struct env (some s) r2 t2 lt2 doc e hv]
  | none =>
    match hp : run_parallel env doc with
    | .error m =>
      rw [validate_application_err_branch env (some s) r1 t1 lt1 doc m hv hp,
        validate_application_err_branch env (some s) r2 t2 lt2 doc m hv hp]
    | .ok (kyc, face) =>
      rw [validate_application_ok env (some s) r1 t1 lt1 doc kyc face hv hp,
        validate_application_ok env (some s) r2 t2 lt2 doc kyc face hv hp]
      simp [resultCore, verdictCore, mkResponse, hid]

/-- Witness for the amended C8: two runs with different random draws,
timestamps and latencies but the same supplied id have equal cores. -/
theorem rerun_identical_core_witness :
    resultCore (validate_application envA (some "APPX") 1 "a" ltA docA).result
      = resultCore
          (validate_application envA (some "APPX") 2 "b" ⟨4, 5, 6⟩ docA).result :=
  rerun_identical_core_with_supplied_id envA docA "APPX" 1 2 "a" "b" ltA
    ⟨4, 5, 6⟩ (by decide)

/-- C9: the errors list is exactly the per-text-field mismatch entries (a
function of the match scores alone - a failing face comparison adds
nothing), so a run with all fields passing and face similarity below 70 has
`overall_pass = false` together with an empty errors list. -/
theorem errors_list_only_field_mismatches (env : Env) (idOpt : Option String)
    (r : Nat) (t : String) (lt : Metrics) (doc : Pdf) (kyc : KycOut)
    (face : FaceOut) (resp : Response)
    (hv : validate_pdf_file doc = none)
    (hk : process_kyc_pdf env doc = .ok kyc)
    (hf : compare_faces_from_pdf env doc = .ok face)
    (hresp : (validate_application env idOpt r t lt doc).result = .ok resp) :
    resp.errors = (kyc.match_scores.filter
        (fun p => !decide (TEXT_SIMILARITY_THRESHOLD ≤ p.2))).map
      (fun p => mismatchEntry p.1)
    ∧ ((∀ p ∈ kyc.match_scores, TEXT_SIMILARITY_THRESHOLD ≤ p.2) →
        face.similarity < FACE_THRESHOLD_TIMES_100 →
        resp.errors = [] ∧ resp.overall_pass = false) := by
  rw [validate_application_ok env idOpt r t lt doc kyc face hv
    (run_parallel_ok env doc kyc face hk hf)] at hresp
  have hr : resp = mkResponse (genAppId idOpt r) kyc face t lt :=
    (HttpResult.ok.inj hresp).symm
  subst hr
  have herr : (mkResponse (genAppId idOpt r) kyc face t lt).errors
      = (kyc.match_scores.filter
          (fun p => !decide (TEXT_SIMILARITY_THRESHOLD ≤ p.2))).map
        (fun p => mismatchEntry p.1) := by
    simp only [mkResponse, fieldsLoop_errors]
  refine ⟨herr, fun hall hface => ⟨?_, ?_⟩⟩
  · rw [herr]
    have hnil : kyc.match_scores.filter
        (fun p => !decide (TEXT_SIMILARITY_THRESHOLD ≤ p.2)) = [] := by
      rw [List.filter_eq_nil_iff]
      intro p hp
      simp [hall p hp]
    rw [hnil, List.map_nil]
  · have hfaceb : decide (FACE_THRESHOLD_TIMES_100 ≤ face.similarity) = false :=
      decide_eq_false (not_le.mpr hface)
    simp [mkResponse, hfaceb]

/-- Witness for C9: the concrete run on `envA`/`docA` (all fields pass,
similarity 50) has an empty errors list and a failing overall verdict. -/
theorem errors_list_only_field_mismatches_witness :
    respA.errors = [] ∧ respA.overall_pass = false :=
  (errors_list_only_field_mismatches envA none 10000 "t0" ltA docA kycA faceA
      respA valid_A process_A face_A endpoint_A).2
    (by intro p hp; fin_cases hp <;> norm_num [TEXT_SIMILARITY_THRESHOLD])
    (by norm_num [faceA, FACE_THRESHOLD_TIMES_100])

/-- C10: when the caller omits `application_id`, the endpoint uses
`APP-` followed by the drawn random integer, which `random.randint` keeps
between 10000 and 99999; and for every caller input the logged
`application_id` is non-empty and is the one carried by a successful
response. -/
theorem generated_application_id (env : Env) (doc : Pdf) (r : Nat) (t : String)
    (lt : Metrics) (h1 : 10000 ≤ r) (h2 : r ≤ 99999) :
    (∃ n : Nat, 10000 ≤ n ∧ n ≤ 99999 ∧
      (validate_application env none r t lt doc).loggedId = "APP-" ++ toString n)
    ∧ (∀ idOpt : Option String,
        (validate_application env idOpt r t lt doc).loggedId ≠ ""
        ∧ ∀ resp : Response,
            (validate_application env idOpt r t lt doc).result = .ok resp →
            resp.application_id
              = (validate_application env idOpt r t lt doc).loggedId) := by
  have hlog : ∀ idOpt, (validate_application env idOpt r t lt doc).loggedId
      = genAppId idOpt r := by
    intro idOpt
    match hv : validate_pdf_file doc with
    | some e => rw [validate_application_err_struct env idOpt r t lt doc e hv]
    | none =>
      match hp : run_parallel env doc with
      | .error m => rw [validate_application_err_branch env idOpt r t lt doc m hv hp]
      | .ok (kyc, face) =>
        rw [validate_application_ok env idOpt r t lt doc kyc face hv hp]
  have happ : ∀ x : String, ("APP-" ++ x) ≠ "" := by
    intro x h
    have hl := congrArg String.length h
    rw [String.length_append] at hl
    simp at hl
    exact absurd hl.1 (by decide)
  constructor
  · exact ⟨r, h1, h2, by rw [hlog none]; rfl⟩
  · intro idOpt
    constructor
    · rw [hlog idOpt]
      match idOpt with
      | none => exact happ _
      | some s =>
        by_cases hs : s = ""
        · simpa [genAppId, hs] using happ (toString r)
        · simp [genAppId, hs]
    · intro resp hresp
      match hv : validate_pdf_file doc with
      | some e =>
        rw [validate_application_err_struct env idOpt r t lt doc e hv] at hresp
        exact HttpResult.noConfusion hresp
      | none =>
        match hp : run_parallel env doc with
        | .error m =>
          rw [validate_application_err_branch env idOpt r t lt doc m hv hp] at hresp
          exact HttpResult.noConfusion hresp
        | .ok (kyc, face) =>
          rw [validate_application_ok env idOpt r t lt doc kyc face hv hp] at hresp
          have hr : resp = mkResponse (genAppId idOpt r) kyc face t lt :=
            (HttpResult.ok.inj hresp).symm
          subst hr
          rw [hlog idOpt]
          rfl

/-- Witness for C10 at `r = 12345`, including the empty-string caller value
(falsy in Python, hence replaced by the generated id). -/
theorem generated_application_id_witness :
    (∃ n : Nat, 10000 ≤ n ∧ n ≤ 99999 ∧
      (validate_application envA none 12345 "t0" ltA docA).loggedId
        = "APP-" ++ toString n)
    ∧ (validate_application envA (some "") 12345 "t0" ltA docA).loggedId ≠ "" :=
  ⟨(generated_application_id envA docA 12345 "t0" ltA (by decide) (by decide)).1,
   ((generated_application_id envA docA 12345 "t0" ltA (by decide)
      (by decide)).2 (some "")).1⟩

end FormValidation
